import Mathlib

/-
Verification of the texture-binding logic of `RCTBaseMesh`
(src/ReactVR/js/Views/BaseMesh.js).

The mesh view keeps a reference-counted binding to a shared texture cache
(`this._rnctx.TextureManager`).  The fields modelled here are exactly the
ones the binding protocol touches:

  _textureURL : null | string   -- key currently holding a cache reference
  _loadingURL : null | string   -- key of the most recent unsettled fetch
  _texture    : null | Texture  -- the bound resource
  _litMaterial.map / _unlitMaterial.map -- owner-visible material state

Cache interactions (`addReference`, `removeReference`, `getTextureForURL`)
and owner notifications (assignments to the material maps together with
`needsUpdate`) are recorded as an event trace.  The asynchronous promise
handlers of `getTextureForURL` are modelled by a list of pending fetches,
each remembering the `url` captured at request time; a settlement step may
resolve any pending fetch, in any order, with success or failure, exactly
as the single-threaded event loop may interleave them.
-/

namespace BaseMesh

/-- Opaque handle for a THREE `Texture` object.  The promise handler only ever
receives a real object (JS objects are truthy), so the handle carries no
null case; `Option Texture` models the nullable fields. -/
abbrev Texture := Nat

/-- Resolved resource location, as produced by `extractURL`. -/
abbrev URL := String

/-- Mirror of the source type
`ResourceSpecifier = void | null | string | (an object with a uri field)`.
`vnull` covers both `void` and `null`. -/
inductive Specifier where
  | vnull : Specifier
  | str : String → Specifier
  | uri : String → Specifier
deriving DecidableEq

/-- JS truthiness of a `ResourceSpecifier`, as tested by `if (!value)` on
line 120: `void`/`null` and the empty string are falsy, every object is
truthy. -/
def Specifier.isFalsy : Specifier → Bool
  | .vnull => true
  | .str s => s.isEmpty
  | .uri _ => false

/-- Modelled from the spec: `extractURL` (imported from
`../Utils/extractURL`, whose source is not under src/) is the external key
derivation: it resolves a specifier to a canonical URL string and may fail
on a malformed specifier.  Failure is any falsy JS result (null or the
empty string); the binding logic below is parametric in the derivation
function, and `extractURL0` is the straightforward instance used for
concrete executions. -/
def extractURL0 : Specifier → Option URL
  | .vnull => none
  | .str s => some s
  | .uri u => some u

/-- The binding-relevant mutable fields of one `RCTBaseMesh`. -/
structure MeshState where
  textureURL : Option URL
  loadingURL : Option URL
  texture : Option Texture
  litMap : Option Texture
  unlitMap : Option Texture
deriving DecidableEq

/-- Constructor state (lines 44-48): all nullable fields null, fresh
materials have no map. -/
def initialMesh : MeshState :=
  { textureURL := none, loadingURL := none, texture := none,
    litMap := none, unlitMap := none }

/-- One observable interaction of the binding with its collaborators.
`addRef`/`removeRef` are the TextureManager reference-count calls,
`startFetch` is a `getTextureForURL` call, `notify` is the owner-visible
material-map update (with the new resource, or none when cleared), and
`logError` is the `console.error` on a failed load. -/
inductive Event where
  | addRef : URL → Event
  | removeRef : URL → Event
  | startFetch : URL → Event
  | notify : Option Texture → Event
  | logError : Event
deriving DecidableEq

/-- Lines 121-128 and 207-214 (shared shape of the clear path of
`_setTexture` and of `dispose`): if a texture is bound, drop it, and if
`_textureURL` is truthy, release its reference and null it. -/
def clearTexturePart (m : MeshState) : MeshState × List Event :=
  if m.texture.isSome then
    match m.textureURL with
    | some u =>
        if u.isEmpty then
          ({ m with texture := none }, [])
        else
          ({ m with texture := none, textureURL := none }, [Event.removeRef u])
    | none => ({ m with texture := none }, [])
  else (m, [])

/-- Lines 120-135: the `!value` branch of `_setTexture` — clear the bound
texture (releasing its reference), then null both material maps.  Note
that `_loadingURL` is left untouched. -/
def setTextureNone (m : MeshState) : MeshState × List Event :=
  let p := clearTexturePart m
  ({ p.1 with litMap := none, unlitMap := none }, p.2 ++ [Event.notify none])

/-- Lines 146-164: the success handler of the fetch for `url`.  If the
captured `url` no longer equals `_loadingURL` the request is stale and
only its reference is released; otherwise the previous bound key's
reference is released (when truthy), the new texture is stored and both
material maps are updated. -/
def settleSuccess (url : URL) (t : Texture) (m : MeshState) : MeshState × List Event :=
  if m.loadingURL ≠ some url then
    (m, [Event.removeRef url])
  else
    let old : List Event :=
      match m.textureURL with
      | some u => if u.isEmpty then [] else [Event.removeRef u]
      | none => []
    ({ m with loadingURL := none, texture := some t, textureURL := some url,
              litMap := some t, unlitMap := some t },
     old ++ [Event.notify (some t)])

/-- Lines 165-169: the failure handler of the fetch for `url` — release the
reference taken for this request, null `_loadingURL` (unconditionally,
with no staleness check), and log the error. -/
def settleFailure (url : URL) (m : MeshState) : MeshState × List Event :=
  ({ m with loadingURL := none }, [Event.removeRef url, Event.logError])

/-- Whole-system state: the mesh fields, the urls captured by fetches whose
handlers have not yet run, and the accumulated interaction trace. -/
structure Sys where
  mesh : MeshState
  pending : List URL
  events : List Event
deriving DecidableEq

/-- System state of a freshly constructed mesh. -/
def initSys : Sys := { mesh := initialMesh, pending := [], events := [] }

/-- Error message thrown on line 138 for an unresolvable specifier. -/
def invalidTextureMsg : String := "Invalid value for \"texture\" property"

/-- Lines 119-174: one synchronous call of `_setTexture`.  A falsy value
takes the clear path; otherwise the derived url is validated (a falsy
url throws before any cache interaction), `_loadingURL` is set,
`addReference` is called and a fetch is started. -/
def setTextureCall (extract : Specifier → Option URL) (v : Specifier) (sys : Sys) :
    Except String Sys :=
  if v.isFalsy then
    let p := setTextureNone sys.mesh
    Except.ok { sys with mesh := p.1, events := sys.events ++ p.2 }
  else
    match extract v with
    | none => Except.error invalidTextureMsg
    | some url =>
        if url.isEmpty then Except.error invalidTextureMsg
        else
          Except.ok
            { mesh := { sys.mesh with loadingURL := some url },
              pending := sys.pending ++ [url],
              events := sys.events ++ [Event.addRef url, Event.startFetch url] }

/-- An event-loop step: a `_setTexture` call, the settlement (success or
failure) of the `i`-th pending fetch, or a `dispose` call. -/
inductive Act where
  | bind : Specifier → Act
  | settleOk : Nat → Texture → Act
  | settleErr : Nat → Act
  | dispose : Act
deriving DecidableEq

/-- Apply one step to the system.  A thrown `_setTexture` error propagates
to the caller of the property setter and leaves the object unchanged; a
settlement act whose index is out of range does nothing (each fetch
settles exactly once, enforced by removing it from `pending`).
`dispose` (lines 206-220) runs the same texture-release block as the
clear path but does not touch the material maps or `_loadingURL`. -/
def applyAct (extract : Specifier → Option URL) (sys : Sys) (a : Act) : Sys :=
  match a with
  | .bind v =>
      match setTextureCall extract v sys with
      | .ok s => s
      | .error _ => sys
  | .settleOk i t =>
      match sys.pending[i]? with
      | some url =>
          let p := settleSuccess url t sys.mesh
          { mesh := p.1, pending := sys.pending.eraseIdx i, events := sys.events ++ p.2 }
      | none => sys
  | .settleErr i =>
      match sys.pending[i]? with
      | some url =>
          let p := settleFailure url sys.mesh
          { mesh := p.1, pending := sys.pending.eraseIdx i, events := sys.events ++ p.2 }
      | none => sys
  | .dispose =>
      let p := clearTexturePart sys.mesh
      { mesh := p.1, pending := sys.pending, events := sys.events ++ p.2 }

/-- Run a sequence of event-loop steps. -/
def run (extract : Specifier → Option URL) (sys : Sys) : List Act → Sys
  | [] => sys
  | a :: rest => run extract (applyAct extract sys a) rest

/-- Is this event an `addReference` call? -/
def isAdd : Event → Bool
  | .addRef _ => true
  | _ => false

/-- Is this event a `removeReference` call? -/
def isRemove : Event → Bool
  | .removeRef _ => true
  | _ => false

/-- Is this event a `getTextureForURL` call? -/
def isFetch : Event → Bool
  | .startFetch _ => true
  | _ => false

/-- Is this event an owner notification carrying a resource? -/
def isNotifySome : Event → Bool
  | .notify (some _) => true
  | _ => false

/-- Number of `addReference` calls in a trace. -/
def countAdd (evs : List Event) : Nat := evs.countP isAdd

/-- Number of `removeReference` calls in a trace. -/
def countRemove (evs : List Event) : Nat := evs.countP isRemove

/-- Number of `getTextureForURL` calls in a trace. -/
def countFetch (evs : List Event) : Nat := evs.countP isFetch

/-- Number of `addReference` calls for one url. -/
def addsFor (u : URL) (evs : List Event) : Nat := evs.count (Event.addRef u)

/-- Number of `removeReference` calls for one url. -/
def removesFor (u : URL) (evs : List Event) : Nat := evs.count (Event.removeRef u)

/-- The owner notifications of a trace that carry a resource. -/
def notifySome (evs : List Event) : List Event := evs.filter isNotifySome

/-- A nullable url field is either null or holds a nonempty string (every
stored url passed the `!url` throw guard). -/
def urlOk : Option URL → Bool
  | none => true
  | some u => !u.isEmpty

/-- Invariant of every reachable system state: the bound texture and the
bound url are set together, every stored url is nonempty, and the
reference-count balance equals the references currently held (one for the
bound key, one per unsettled fetch). -/
structure SysInv (sys : Sys) : Prop where
  tex_url : sys.mesh.texture.isSome = sys.mesh.textureURL.isSome
  url_ok : urlOk sys.mesh.textureURL = true
  loading_ok : urlOk sys.mesh.loadingURL = true
  pending_ok : ∀ u ∈ sys.pending, u.isEmpty = false
  balance : countAdd sys.events =
    countRemove sys.events + (if sys.mesh.textureURL.isSome then 1 else 0) +
      sys.pending.length

theorem countAdd_append (a b : List Event) :
    countAdd (a ++ b) = countAdd a + countAdd b := by
  simp [countAdd, List.countP_append]

theorem countRemove_append (a b : List Event) :
    countRemove (a ++ b) = countRemove a + countRemove b := by
  simp [countRemove, List.countP_append]

theorem countFetch_append (a b : List Event) :
    countFetch (a ++ b) = countFetch a + countFetch b := by
  simp [countFetch, List.countP_append]

theorem notifySome_append (a b : List Event) :
    notifySome (a ++ b) = notifySome a ++ notifySome b := by
  simp [notifySome, List.filter_append]

theorem run_append (extract : Specifier → Option URL) (sys : Sys) (l1 l2 : List Act) :
    run extract sys (l1 ++ l2) = run extract (run extract sys l1) l2 := by
  induction l1 generalizing sys with
  | nil => simp [run]
  | cons a rest ih => simp [run, ih]

theorem setTextureNone_bound (m : MeshState) (u : URL)
    (ht : m.texture.isSome = true) (hm : m.textureURL = some u)
    (hne : u.isEmpty = false) :
    setTextureNone m =
      ({ m with texture := none, textureURL := none, litMap := none, unlitMap := none },
       [Event.removeRef u, Event.notify none]) := by
  simp [setTextureNone, clearTexturePart, ht, hm, hne]

theorem setTextureNone_notex (m : MeshState) (ht : m.texture = none) :
    setTextureNone m =
      ({ m with litMap := none, unlitMap := none }, [Event.notify none]) := by
  simp [setTextureNone, clearTexturePart, ht]

theorem applyAct_bind_falsy (extract : Specifier → Option URL) (sys : Sys)
    (v : Specifier) (hf : v.isFalsy = true) :
    applyAct extract sys (Act.bind v) =
      { sys with mesh := (setTextureNone sys.mesh).1,
                 events := sys.events ++ (setTextureNone sys.mesh).2 } := by
  simp [applyAct, setTextureCall, hf]

theorem applyAct_bind_extract_fails (extract : Specifier → Option URL) (sys : Sys)
    (v : Specifier) (hf : v.isFalsy = false)
    (he : extract v = none ∨ ∃ url, extract v = some url ∧ url.isEmpty = true) :
    applyAct extract sys (Act.bind v) = sys := by
  rcases he with he | ⟨url, he, hu⟩ <;> simp [applyAct, setTextureCall, hf, he]
  simp [hu]

theorem applyAct_bind_url (extract : Specifier → Option URL) (sys : Sys)
    (v : Specifier) (url : URL) (hf : v.isFalsy = false)
    (he : extract v = some url) (hu : url.isEmpty = false) :
    applyAct extract sys (Act.bind v) =
      { mesh := { sys.mesh with loadingURL := some url },
        pending := sys.pending ++ [url],
        events := sys.events ++ [Event.addRef url, Event.startFetch url] } := by
  simp [applyAct, setTextureCall, hf, he, hu]

theorem applyAct_settleOk_oob (extract : Specifier → Option URL) (sys : Sys)
    (i : Nat) (t : Texture) (hp : sys.pending[i]? = none) :
    applyAct extract sys (Act.settleOk i t) = sys := by
  simp [applyAct, hp]

theorem applyAct_settleErr_oob (extract : Specifier → Option URL) (sys : Sys)
    (i : Nat) (hp : sys.pending[i]? = none) :
    applyAct extract sys (Act.settleErr i) = sys := by
  simp [applyAct, hp]

theorem applyAct_settleOk_stale (extract : Specifier → Option URL) (sys : Sys)
    (i : Nat) (t : Texture) (url : URL) (hp : sys.pending[i]? = some url)
    (hcur : sys.mesh.loadingURL ≠ some url) :
    applyAct extract sys (Act.settleOk i t) =
      { sys with pending := sys.pending.eraseIdx i,
                 events := sys.events ++ [Event.removeRef url] } := by
  simp [applyAct, hp, settleSuccess, hcur]

theorem applyAct_settleOk_current_bound (extract : Specifier → Option URL) (sys : Sys)
    (i : Nat) (t : Texture) (url old : URL) (hp : sys.pending[i]? = some url)
    (hcur : sys.mesh.loadingURL = some url)
    (hm : sys.mesh.textureURL = some old) (ho : old.isEmpty = false) :
    applyAct extract sys (Act.settleOk i t) =
      { mesh := { sys.mesh with
                    loadingURL := none, texture := some t, textureURL := some url,
                    litMap := some t, unlitMap := some t },
        pending := sys.pending.eraseIdx i,
        events := sys.events ++ [Event.removeRef old, Event.notify (some t)] } := by
  simp [applyAct, hp, settleSuccess, hcur, hm, ho]

theorem applyAct_settleOk_current_unbound (extract : Specifier → Option URL) (sys : Sys)
    (i : Nat) (t : Texture) (url : URL) (hp : sys.pending[i]? = some url)
    (hcur : sys.mesh.loadingURL = some url) (hm : sys.mesh.textureURL = none) :
    applyAct extract sys (Act.settleOk i t) =
      { mesh := { sys.mesh with
                    loadingURL := none, texture := some t, textureURL := some url,
                    litMap := some t, unlitMap := some t },
        pending := sys.pending.eraseIdx i,
        events := sys.events ++ [Event.notify (some t)] } := by
  simp [applyAct, hp, settleSuccess, hcur, hm]

theorem applyAct_settleErr_in (extract : Specifier → Option URL) (sys : Sys)
    (i : Nat) (url : URL) (hp : sys.pending[i]? = some url) :
    applyAct extract sys (Act.settleErr i) =
      { mesh := { sys.mesh with loadingURL := none },
        pending := sys.pending.eraseIdx i,
        events := sys.events ++ [Event.removeRef url, Event.logError] } := by
  simp [applyAct, hp, settleFailure]

theorem applyAct_dispose_bound (extract : Specifier → Option URL) (sys : Sys)
    (u : URL) (ht : sys.mesh.texture.isSome = true)
    (hm : sys.mesh.textureURL = some u) (hne : u.isEmpty = false) :
    applyAct extract sys Act.dispose =
      { sys with mesh := { sys.mesh with texture := none, textureURL := none },
                 events := sys.events ++ [Event.removeRef u] } := by
  simp [applyAct, clearTexturePart, ht, hm, hne]

theorem applyAct_dispose_notex (extract : Specifier → Option URL) (sys : Sys)
    (ht : sys.mesh.texture = none) :
    applyAct extract sys Act.dispose = sys := by
  simp [applyAct, clearTexturePart, ht]


theorem sysInv_init : SysInv initSys := by
  constructor <;> simp [initSys, initialMesh, urlOk, countAdd, countRemove]

theorem sysInv_step (extract : Specifier → Option URL) (sys : Sys) (a : Act)
    (h : SysInv sys) : SysInv (applyAct extract sys a) := by
  obtain ⟨htex, hurl, hload, hpend, hbal⟩ := h
  cases a with
  | bind v =>
    by_cases hf : v.isFalsy = true
    · cases hm : sys.mesh.textureURL with
      | some u =>
        have ht : sys.mesh.texture.isSome = true := by rw [htex, hm]; rfl
        have hne : u.isEmpty = false := by
          have h2 := hurl; rw [hm] at h2; simpa [urlOk] using h2
        rw [applyAct_bind_falsy extract sys v hf,
            setTextureNone_bound sys.mesh u ht hm hne]
        have hb := hbal
        rw [hm] at hb
        refine ⟨by simp, by simp [urlOk], by simpa [urlOk] using hload,
                by simpa using hpend, ?_⟩
        simp [countAdd_append, countRemove_append, countAdd, countRemove,
              isAdd, isRemove, List.countP_cons, List.countP_nil] at hb ⊢
        omega
      | none =>
        have ht : sys.mesh.texture = none := by
          cases hx : sys.mesh.texture with
          | none => rfl
          | some w => rw [hx, hm] at htex; simp at htex
        rw [applyAct_bind_falsy extract sys v hf, setTextureNone_notex sys.mesh ht]
        have hb := hbal
        rw [hm] at hb
        refine ⟨by simp [ht, hm], by simp [hm, urlOk], by simpa [urlOk] using hload,
                by simpa using hpend, ?_⟩
        simp [countAdd_append, countRemove_append, countAdd, countRemove,
              isAdd, isRemove, List.countP_cons, List.countP_nil, hm] at hb ⊢
        omega
    · have hf2 : v.isFalsy = false := by simpa using hf
      cases he : extract v with
      | none =>
        rw [applyAct_bind_extract_fails extract sys v hf2 (Or.inl he)]
        exact ⟨htex, hurl, hload, hpend, hbal⟩
      | some url =>
        by_cases hu : url.isEmpty = true
        · rw [applyAct_bind_extract_fails extract sys v hf2 (Or.inr ⟨url, he, hu⟩)]
          exact ⟨htex, hurl, hload, hpend, hbal⟩
        · have hu2 : url.isEmpty = false := by simpa using hu
          rw [applyAct_bind_url extract sys v url hf2 he hu2]
          refine ⟨by simpa using htex, by simpa [urlOk] using hurl,
                  by simp [urlOk, hu2], ?_, ?_⟩
          · intro x hx
            rcases List.mem_append.mp hx with hx | hx
            · exact hpend x hx
            · rw [List.mem_singleton.mp hx]; exact hu2
          · have hb := hbal
            simp [countAdd_append, countRemove_append, countAdd, countRemove,
                  isAdd, isRemove, List.countP_cons, List.countP_nil] at hb ⊢
            by_cases htu : sys.mesh.textureURL.isSome = true <;>
              simp [htu] at hb ⊢ <;> omega
  | settleOk i t =>
    cases hp : sys.pending[i]? with
    | none =>
      rw [applyAct_settleOk_oob extract sys i t hp]
      exact ⟨htex, hurl, hload, hpend, hbal⟩
    | some url =>
      obtain ⟨hlt, hget⟩ := List.getElem?_eq_some_iff.mp hp
      have hmem : url ∈ sys.pending := hget ▸ List.getElem_mem hlt
      have hune : url.isEmpty = false := hpend url hmem
      have hlen : (sys.pending.eraseIdx i).length = sys.pending.length - 1 := by
        simp [List.length_eraseIdx, hlt]
      have hpend2 : ∀ x ∈ sys.pending.eraseIdx i, x.isEmpty = false := fun x hx =>
        hpend x ((List.eraseIdx_sublist sys.pending i).subset hx)
      by_cases hcur : sys.mesh.loadingURL = some url
      · cases hm : sys.mesh.textureURL with
        | some old =>
          have hone : old.isEmpty = false := by
            have h2 := hurl; rw [hm] at h2; simpa [urlOk] using h2
          rw [applyAct_settleOk_current_bound extract sys i t url old hp hcur hm hone]
          have hb := hbal
          rw [hm] at hb
          refine ⟨by simp, by simp [urlOk, hune], by simp [urlOk],
                  by simpa using hpend2, ?_⟩
          simp [countAdd_append, countRemove_append, countAdd, countRemove,
                isAdd, isRemove, List.countP_cons, List.countP_nil, hlen] at hb ⊢
          omega
        | none =>
          rw [applyAct_settleOk_current_unbound extract sys i t url hp hcur hm]
          have hb := hbal
          rw [hm] at hb
          refine ⟨by simp, by simp [urlOk, hune], by simp [urlOk],
                  by simpa using hpend2, ?_⟩
          simp [countAdd_append, countRemove_append, countAdd, countRemove,
                isAdd, isRemove, List.countP_cons, List.countP_nil, hlen] at hb ⊢
          omega
      · rw [applyAct_settleOk_stale extract sys i t url hp hcur]
        refine ⟨by simpa using htex, by simpa [urlOk] using hurl,
                by simpa [urlOk] using hload, by simpa using hpend2, ?_⟩
        have hb := hbal
        simp [countAdd_append, countRemove_append, countAdd, countRemove,
              isAdd, isRemove, List.countP_cons, List.countP_nil, hlen] at hb ⊢
        by_cases htu : sys.mesh.textureURL.isSome = true <;>
          simp [htu] at hb ⊢ <;> omega
  | settleErr i =>
    cases hp : sys.pending[i]? with
    | none =>
      rw [applyAct_settleErr_oob extract sys i hp]
      exact ⟨htex, hurl, hload, hpend, hbal⟩
    | some url =>
      obtain ⟨hlt, hget⟩ := List.getElem?_eq_some_iff.mp hp
      have hlen : (sys.pending.eraseIdx i).length = sys.pending.length - 1 := by
        simp [List.length_eraseIdx, hlt]
      have hpend2 : ∀ x ∈ sys.pending.eraseIdx i, x.isEmpty = false := fun x hx =>
        hpend x ((List.eraseIdx_sublist sys.pending i).subset hx)
      rw [applyAct_settleErr_in extract sys i url hp]
      refine ⟨by simpa using htex, by simpa [urlOk] using hurl, by simp [urlOk],
              by simpa using hpend2, ?_⟩
      have hb := hbal
      simp [countAdd_append, countRemove_append, countAdd, countRemove,
            isAdd, isRemove, List.countP_cons, List.countP_nil, hlen] at hb ⊢
      by_cases htu : sys.mesh.textureURL.isSome = true <;>
        simp [htu] at hb ⊢ <;> omega
  | dispose =>
    cases hm : sys.mesh.textureURL with
    | some u =>
      have ht : sys.mesh.texture.isSome = true := by rw [htex, hm]; rfl
      have hne : u.isEmpty = false := by
        have h2 := hurl; rw [hm] at h2; simpa [urlOk] using h2
      rw [applyAct_dispose_bound extract sys u ht hm hne]
      have hb := hbal
      rw [hm] at hb
      refine ⟨by simp, by simp [urlOk], by simpa [urlOk] using hload,
              by simpa using hpend, ?_⟩
      simp [countAdd_append, countRemove_append, countAdd, countRemove,
            isAdd, isRemove, List.countP_cons, List.countP_nil] at hb ⊢
      omega
    | none =>
      have ht : sys.mesh.texture = none := by
        cases hx : sys.mesh.texture with
        | none => rfl
        | some w => rw [hx, hm] at htex; simp at htex
      rw [applyAct_dispose_notex extract sys ht]
      exact ⟨htex, hurl, hload, hpend, hbal⟩

theorem sysInv_run (extract : Specifier → Option URL) (sys : Sys) (tr : List Act)
    (h : SysInv sys) : SysInv (run extract sys tr) := by
  induction tr generalizing sys with
  | nil => simpa [run] using h
  | cons a rest ih => exact ih (applyAct extract sys a) (sysInv_step extract sys a h)

/-- C9: in every reachable binding state — after any sequence of bind calls,
fetch settlements and dispose steps from the constructor state, with the
loader only ever delivering real texture objects — the bound resource
`_texture` is null if and only if the bound key `_textureURL` is null. -/
theorem C9_texture_iff_textureURL (extract : Specifier → Option URL) (tr : List Act) :
    ((run extract initSys tr).mesh.texture = none ↔
      (run extract initSys tr).mesh.textureURL = none) := by
  have h := (sysInv_run extract initSys tr sysInv_init).tex_url
  cases hA : (run extract initSys tr).mesh.texture <;>
    cases hB : (run extract initSys tr).mesh.textureURL <;>
      rw [hA, hB] at h <;> simp_all

/-- C1 is refuted: after bind("a"), a dispose() while the fetch is still in
flight, and then the successful settlement of that fetch, dispose() has
completed and every fetch has settled, yet the binding issued one
addReference and no removeReference — the reference is leaked. -/
theorem C1_counterexample :
    (run extractURL0 initSys
        [Act.bind (Specifier.str "a"), Act.dispose, Act.settleOk 0 7]).pending = [] ∧
    countAdd (run extractURL0 initSys
        [Act.bind (Specifier.str "a"), Act.dispose, Act.settleOk 0 7]).events = 1 ∧
    countRemove (run extractURL0 initSys
        [Act.bind (Specifier.str "a"), Act.dispose, Act.settleOk 0 7]).events = 0 ∧
    countAdd (run extractURL0 initSys
        [Act.bind (Specifier.str "a"), Act.dispose, Act.settleOk 0 7]).events ≠
      countRemove (run extractURL0 initSys
        [Act.bind (Specifier.str "a"), Act.dispose, Act.settleOk 0 7]).events := by
  decide

/-- C1 (amended): for every sequence of bind and settlement steps on one
binding in which every issued fetch has settled before dispose() runs,
once dispose() completes the number of addReference calls the binding
issued equals the number of removeReference calls — no reference leaked,
none released twice.  (If a fetch is still in flight when dispose() runs
the balance can fail: see the counterexample, where the in-flight success
re-binds after disposal and leaks one reference.) -/
theorem C1_refcount_balance (extract : Specifier → Option URL) (tr : List Act)
    (h : (run extract initSys tr).pending = []) :
    countAdd (run extract initSys (tr ++ [Act.dispose])).events =
      countRemove (run extract initSys (tr ++ [Act.dispose])).events := by
  rw [run_append]
  obtain ⟨htex, hurl, hload, hpend, hbal⟩ := sysInv_run extract initSys tr sysInv_init
  have hone : run extract (run extract initSys tr) [Act.dispose] =
      applyAct extract (run extract initSys tr) Act.dispose := by
    simp [run]
  rw [hone]
  cases hm : (run extract initSys tr).mesh.textureURL with
  | some u =>
    have ht : (run extract initSys tr).mesh.texture.isSome = true := by
      rw [htex, hm]; rfl
    have hne : u.isEmpty = false := by
      rw [hm] at hurl; simpa [urlOk] using hurl
    rw [applyAct_dispose_bound extract _ u ht hm hne]
    rw [hm, h] at hbal
    simp [countAdd_append, countRemove_append, countAdd, countRemove,
          isAdd, isRemove, List.countP_cons, List.countP_nil] at hbal ⊢
    omega
  | none =>
    have ht : (run extract initSys tr).mesh.texture = none := by
      cases hx : (run extract initSys tr).mesh.texture with
      | none => rfl
      | some w => rw [hx, hm] at htex; simp at htex
    rw [applyAct_dispose_notex extract _ ht]
    rw [hm, h] at hbal
    simpa using hbal

/-- Witness for C1 (amended): bind("a"), let the fetch succeed, then
dispose(): one addReference, one removeReference. -/
theorem C1_refcount_balance_witness :
    countAdd (run extractURL0 initSys
        ([Act.bind (Specifier.str "a"), Act.settleOk 0 5] ++ [Act.dispose])).events =
      countRemove (run extractURL0 initSys
        ([Act.bind (Specifier.str "a"), Act.settleOk 0 5] ++ [Act.dispose])).events :=
  C1_refcount_balance extractURL0 [Act.bind (Specifier.str "a"), Act.settleOk 0 5]
    (by decide)

/-- C8: for a truthy specifier from which no usable url can be derived (key
derivation yields null or the empty string), `_setTexture` throws the
invalid-value error before any cache interaction — no addReference,
removeReference or fetch is issued — and the binding state, the pending
fetches and the event trace are left exactly as they were. -/
theorem C8_invalid_key (extract : Specifier → Option URL) (sys : Sys) (v : Specifier)
    (hf : v.isFalsy = false)
    (he : extract v = none ∨ ∃ url, extract v = some url ∧ url.isEmpty = true) :
    setTextureCall extract v sys = Except.error invalidTextureMsg ∧
    applyAct extract sys (Act.bind v) = sys := by
  refine ⟨?_, applyAct_bind_extract_fails extract sys v hf he⟩
  rcases he with he | ⟨url, he, hu⟩
  · simp [setTextureCall, hf, he]
  · simp [setTextureCall, hf, he, hu]

/-- Witness for C8: the specifier with an empty uri field is truthy but
yields no key; the call errors and changes nothing. -/
theorem C8_invalid_key_witness :
    setTextureCall extractURL0 (Specifier.uri "") initSys =
        Except.error invalidTextureMsg ∧
      applyAct extractURL0 initSys (Act.bind (Specifier.uri "")) = initSys :=
  C8_invalid_key extractURL0 initSys (Specifier.uri "") (by decide)
    (Or.inr ⟨"", by decide, by decide⟩)

/-- C10: clearing an already-empty binding is underflow-safe: when no
texture is bound, `_setTexture` with a falsy value issues no cache call at
all (in particular no removeReference) and only resets both material maps
and notifies the owner with no resource, while `dispose()` issues no cache
call and leaves the state entirely unchanged. -/
theorem C10_empty_clear (extract : Specifier → Option URL) (sys : Sys) (v : Specifier)
    (hf : v.isFalsy = true) (ht : sys.mesh.texture = none) :
    applyAct extract sys (Act.bind v) =
      { sys with mesh := { sys.mesh with litMap := none, unlitMap := none },
                 events := sys.events ++ [Event.notify none] } ∧
    applyAct extract sys Act.dispose = sys := by
  constructor
  · rw [applyAct_bind_falsy extract sys v hf, setTextureNone_notex sys.mesh ht]
  · exact applyAct_dispose_notex extract sys ht

/-- Witness for C10: clearing the freshly constructed (empty) binding. -/
theorem C10_empty_clear_witness :
    applyAct extractURL0 initSys (Act.bind Specifier.vnull) =
      { initSys with
          mesh := { initSys.mesh with litMap := none, unlitMap := none },
          events := initSys.events ++ [Event.notify none] } ∧
    applyAct extractURL0 initSys Act.dispose = initSys :=
  C10_empty_clear extractURL0 initSys Specifier.vnull (by decide) (by decide)

/-- C3 is refuted: with "a" already bound and nothing loading, binding "a"
again is not a no-op — the code issues a second addReference, starts a
second fetch, and changes `_loadingURL` from null to "a". -/
theorem C3_counterexample :
    countAdd (run extractURL0 initSys
        [Act.bind (Specifier.str "a"), Act.settleOk 0 5]).events = 1 ∧
    (run extractURL0 initSys
        [Act.bind (Specifier.str "a"), Act.settleOk 0 5]).mesh.loadingURL = none ∧
    countAdd (run extractURL0 initSys
        [Act.bind (Specifier.str "a"), Act.settleOk 0 5,
         Act.bind (Specifier.str "a")]).events = 2 ∧
    countFetch (run extractURL0 initSys
        [Act.bind (Specifier.str "a"), Act.settleOk 0 5,
         Act.bind (Specifier.str "a")]).events = 2 ∧
    (run extractURL0 initSys
        [Act.bind (Specifier.str "a"), Act.settleOk 0 5,
         Act.bind (Specifier.str "a")]).mesh.loadingURL = some "a" := by
  decide

/-- C3 (amended): binding the key that is already bound (or loading) is not
guarded: a fresh reference is taken and a fresh fetch is started.  It is
nevertheless harmless: once the extra fetch settles successfully, the
extra reference has been released again — two addReference calls against
one removeReference, i.e. net one reference held for the key — the key
remains bound and no load is left in flight. -/
theorem C3_same_key_rebind (u : URL) (t t2 : Texture) (h : u.isEmpty = false) :
    addsFor u (run extractURL0 initSys
        [Act.bind (Specifier.str u), Act.settleOk 0 t,
         Act.bind (Specifier.str u), Act.settleOk 0 t2]).events = 2 ∧
    removesFor u (run extractURL0 initSys
        [Act.bind (Specifier.str u), Act.settleOk 0 t,
         Act.bind (Specifier.str u), Act.settleOk 0 t2]).events = 1 ∧
    countFetch (run extractURL0 initSys
        [Act.bind (Specifier.str u), Act.settleOk 0 t,
         Act.bind (Specifier.str u), Act.settleOk 0 t2]).events = 2 ∧
    (run extractURL0 initSys
        [Act.bind (Specifier.str u), Act.settleOk 0 t,
         Act.bind (Specifier.str u), Act.settleOk 0 t2]).mesh.textureURL = some u ∧
    (run extractURL0 initSys
        [Act.bind (Specifier.str u), Act.settleOk 0 t,
         Act.bind (Specifier.str u), Act.settleOk 0 t2]).mesh.loadingURL = none ∧
    (run extractURL0 initSys
        [Act.bind (Specifier.str u), Act.settleOk 0 t,
         Act.bind (Specifier.str u), Act.settleOk 0 t2]).pending = [] := by
  refine ⟨?_, ?_, ?_, ?_, ?_, ?_⟩ <;>
    simp [run, applyAct, setTextureCall, settleSuccess, setTextureNone,
          clearTexturePart, Specifier.isFalsy, extractURL0, initSys, initialMesh,
          h, addsFor, removesFor, countFetch, isFetch, List.countP_cons,
          List.countP_nil, List.count_cons, List.count_nil]

/-- Witness for C3 (amended). -/
theorem C3_same_key_rebind_witness :
    addsFor "a" (run extractURL0 initSys
        [Act.bind (Specifier.str "a"), Act.settleOk 0 1,
         Act.bind (Specifier.str "a"), Act.settleOk 0 2]).events = 2 ∧
    removesFor "a" (run extractURL0 initSys
        [Act.bind (Specifier.str "a"), Act.settleOk 0 1,
         Act.bind (Specifier.str "a"), Act.settleOk 0 2]).events = 1 ∧
    countFetch (run extractURL0 initSys
        [Act.bind (Specifier.str "a"), Act.settleOk 0 1,
         Act.bind (Specifier.str "a"), Act.settleOk 0 2]).events = 2 ∧
    (run extractURL0 initSys
        [Act.bind (Specifier.str "a"), Act.settleOk 0 1,
         Act.bind (Specifier.str "a"), Act.settleOk 0 2]).mesh.textureURL = some "a" ∧
    (run extractURL0 initSys
        [Act.bind (Specifier.str "a"), Act.settleOk 0 1,
         Act.bind (Specifier.str "a"), Act.settleOk 0 2]).mesh.loadingURL = none ∧
    (run extractURL0 initSys
        [Act.bind (Specifier.str "a"), Act.settleOk 0 1,
         Act.bind (Specifier.str "a"), Act.settleOk 0 2]).pending = [] :=
  C3_same_key_rebind "a" 1 2 (by decide)

/-- C4 is refuted on its staleness clause: after bind("a") then bind("b"),
the binding is loading "b"; when the stale fetch for "a" fails, the error
handler clears `_loadingURL` unconditionally, wiping the loadingKey of the
newer in-flight request instead of leaving the state unchanged. -/
theorem C4_counterexample :
    (run extractURL0 initSys
        [Act.bind (Specifier.str "a"), Act.bind (Specifier.str "b")]).mesh.loadingURL
        = some "b" ∧
    (run extractURL0 initSys
        [Act.bind (Specifier.str "a"), Act.bind (Specifier.str "b"),
         Act.settleErr 0]).mesh.loadingURL = none := by
  decide

/-- C4 (amended): when a fetch issued for newKey settles with failure,
removeReference(newKey) is called whether or not the request is still
current, and `_loadingURL` is cleared unconditionally — even when the
request is stale, so a stale failure also wipes the loadingKey of a newer
in-flight request (which will consequently be treated as stale when it
settles); no other binding state changes, and the error is only logged. -/
theorem C4_failure_path (extract : Specifier → Option URL) (sys : Sys) (i : Nat)
    (u : URL) (hp : sys.pending[i]? = some u) :
    (applyAct extract sys (Act.settleErr i)).mesh =
        { sys.mesh with loadingURL := none } ∧
    (applyAct extract sys (Act.settleErr i)).events =
        sys.events ++ [Event.removeRef u, Event.logError] ∧
    removesFor u (applyAct extract sys (Act.settleErr i)).events =
        removesFor u sys.events + 1 := by
  rw [applyAct_settleErr_in extract sys i u hp]
  refine ⟨rfl, rfl, ?_⟩
  simp [removesFor, List.count_append]

/-- Witness for C4 (amended): the stale failure of the superseded fetch for
"a" while "b" is loading. -/
theorem C4_failure_path_witness :
    (applyAct extractURL0 (run extractURL0 initSys
        [Act.bind (Specifier.str "a"), Act.bind (Specifier.str "b")])
        (Act.settleErr 0)).mesh =
        { (run extractURL0 initSys
            [Act.bind (Specifier.str "a"), Act.bind (Specifier.str "b")]).mesh with
            loadingURL := none } ∧
    (applyAct extractURL0 (run extractURL0 initSys
        [Act.bind (Specifier.str "a"), Act.bind (Specifier.str "b")])
        (Act.settleErr 0)).events =
        (run extractURL0 initSys
          [Act.bind (Specifier.str "a"), Act.bind (Specifier.str "b")]).events ++
          [Event.removeRef "a", Event.logError] ∧
    removesFor "a" (applyAct extractURL0 (run extractURL0 initSys
        [Act.bind (Specifier.str "a"), Act.bind (Specifier.str "b")])
        (Act.settleErr 0)).events =
        removesFor "a" (run extractURL0 initSys
          [Act.bind (Specifier.str "a"), Act.bind (Specifier.str "b")]).events + 1 :=
  C4_failure_path extractURL0
    (run extractURL0 initSys [Act.bind (Specifier.str "a"), Act.bind (Specifier.str "b")])
    0 "a" (by decide)

/-- C5 is refuted on its loadingKey clause: bind("a") followed by a bind
with an empty specifier leaves `_loadingURL` as "a" instead of clearing
it, so the outstanding fetch still passes its generation check when it
settles, re-binds "a" and notifies the owner with its resource. -/
theorem C5_counterexample :
    (run extractURL0 initSys
        [Act.bind (Specifier.str "a"), Act.bind Specifier.vnull]).mesh.loadingURL
        = some "a" ∧
    (run extractURL0 initSys
        [Act.bind (Specifier.str "a"), Act.bind Specifier.vnull,
         Act.settleOk 0 7]).mesh.textureURL = some "a" ∧
    notifySome (run extractURL0 initSys
        [Act.bind (Specifier.str "a"), Act.bind Specifier.vnull,
         Act.settleOk 0 7]).events = [Event.notify (some 7)] := by
  decide

/-- C5 (amended): a bind call with a falsy specifier while a texture is
bound releases the bound key via removeReference, clears the bound key and
resource, resets both material maps and notifies the owner with no
resource synchronously — but it leaves `_loadingURL` unchanged, so an
outstanding in-flight request stays current and will bind on settlement
(its reference then retained as the new bound reference) rather than
failing a generation check. -/
theorem C5_bind_none (extract : Specifier → Option URL) (sys : Sys) (v : Specifier)
    (u : URL) (hf : v.isFalsy = true) (ht : sys.mesh.texture.isSome = true)
    (hm : sys.mesh.textureURL = some u) (hne : u.isEmpty = false) :
    applyAct extract sys (Act.bind v) =
      { sys with
          mesh := { sys.mesh with
                      texture := none, textureURL := none,
                      litMap := none, unlitMap := none },
          events := sys.events ++ [Event.removeRef u, Event.notify none] } := by
  rw [applyAct_bind_falsy extract sys v hf, setTextureNone_bound sys.mesh u ht hm hne]

/-- Witness for C5 (amended): clearing the binding after "a" was bound. -/
theorem C5_bind_none_witness :
    applyAct extractURL0 (run extractURL0 initSys
        [Act.bind (Specifier.str "a"), Act.settleOk 0 5]) (Act.bind Specifier.vnull) =
      { (run extractURL0 initSys
          [Act.bind (Specifier.str "a"), Act.settleOk 0 5]) with
          mesh := { (run extractURL0 initSys
              [Act.bind (Specifier.str "a"), Act.settleOk 0 5]).mesh with
              texture := none, textureURL := none,
              litMap := none, unlitMap := none },
          events := (run extractURL0 initSys
              [Act.bind (Specifier.str "a"), Act.settleOk 0 5]).events ++
            [Event.removeRef "a", Event.notify none] } :=
  C5_bind_none extractURL0
    (run extractURL0 initSys [Act.bind (Specifier.str "a"), Act.settleOk 0 5])
    Specifier.vnull "a" (by decide) (by decide) (by decide) (by decide)

/-- C6 is refuted on its inertness clause: bind("x") succeeds, dispose()
releases the reference, yet a subsequent bind("x") on the disposed binding
is honored — a second addReference is issued and a new fetch is left in
flight. -/
theorem C6_counterexample :
    countRemove (run extractURL0 initSys
        [Act.bind (Specifier.str "x"), Act.settleOk 0 5, Act.dispose]).events = 1 ∧
    countAdd (run extractURL0 initSys
        [Act.bind (Specifier.str "x"), Act.settleOk 0 5, Act.dispose,
         Act.bind (Specifier.str "x")]).events = 2 ∧
    (run extractURL0 initSys
        [Act.bind (Specifier.str "x"), Act.settleOk 0 5, Act.dispose,
         Act.bind (Specifier.str "x")]).pending = ["x"] := by
  decide

/-- C6 (amended): dispose() releases the bound key's reference exactly once
(one removeReference, clearing the bound key), but it does not make the
binding inert: a subsequent bind call with a resolvable key is honored
unchanged, issuing addReference and starting a new fetch. -/
theorem C6_dispose_not_inert (extract : Specifier → Option URL) (sys : Sys)
    (u w : URL) (v : Specifier)
    (ht : sys.mesh.texture.isSome = true) (hm : sys.mesh.textureURL = some u)
    (hne : u.isEmpty = false) (hf : v.isFalsy = false)
    (he : extract v = some w) (hw : w.isEmpty = false) :
    (applyAct extract sys Act.dispose).events = sys.events ++ [Event.removeRef u] ∧
    (applyAct extract sys Act.dispose).mesh.textureURL = none ∧
    (applyAct extract (applyAct extract sys Act.dispose) (Act.bind v)).events =
      sys.events ++ [Event.removeRef u, Event.addRef w, Event.startFetch w] ∧
    (applyAct extract (applyAct extract sys Act.dispose) (Act.bind v)).pending =
      sys.pending ++ [w] := by
  rw [applyAct_dispose_bound extract sys u ht hm hne]
  rw [applyAct_bind_url extract _ v w hf he hw]
  exact ⟨rfl, rfl, by simp, by simp⟩

/-- Witness for C6 (amended): dispose after binding "x", then bind("x"). -/
theorem C6_dispose_not_inert_witness :
    (applyAct extractURL0 (run extractURL0 initSys
        [Act.bind (Specifier.str "x"), Act.settleOk 0 5]) Act.dispose).events =
      (run extractURL0 initSys
        [Act.bind (Specifier.str "x"), Act.settleOk 0 5]).events ++
        [Event.removeRef "x"] ∧
    (applyAct extractURL0 (run extractURL0 initSys
        [Act.bind (Specifier.str "x"), Act.settleOk 0 5])
        Act.dispose).mesh.textureURL = none ∧
    (applyAct extractURL0 (applyAct extractURL0 (run extractURL0 initSys
        [Act.bind (Specifier.str "x"), Act.settleOk 0 5]) Act.dispose)
        (Act.bind (Specifier.str "x"))).events =
      (run extractURL0 initSys
        [Act.bind (Specifier.str "x"), Act.settleOk 0 5]).events ++
        [Event.removeRef "x", Event.addRef "x", Event.startFetch "x"] ∧
    (applyAct extractURL0 (applyAct extractURL0 (run extractURL0 initSys
        [Act.bind (Specifier.str "x"), Act.settleOk 0 5]) Act.dispose)
        (Act.bind (Specifier.str "x"))).pending =
      (run extractURL0 initSys
        [Act.bind (Specifier.str "x"), Act.settleOk 0 5]).pending ++ ["x"] :=
  C6_dispose_not_inert extractURL0
    (run extractURL0 initSys [Act.bind (Specifier.str "x"), Act.settleOk 0 5])
    "x" "x" (Specifier.str "x") (by decide) (by decide) (by decide) (by decide)
    (by decide) (by decide)

/-- C7: success-path postcondition.  When the fetch for newKey settles
successfully and is still current (`_loadingURL` equals newKey), the
binding releases the previous bound key's reference when one was set, sets
the bound key to newKey, clears the loading key, stores the resource in
`_texture` and both material maps, and notifies the owner with it.  When
the request is stale, removeReference(newKey) is the only action: no
binding field and no owner-visible material changes. -/
theorem C7_success_settlement (extract : Specifier → Option URL) (sys : Sys)
    (i : Nat) (u : URL) (t : Texture) (hp : sys.pending[i]? = some u)
    (hok : urlOk sys.mesh.textureURL = true) :
    (sys.mesh.loadingURL = some u →
      (applyAct extract sys (Act.settleOk i t)).mesh =
        { sys.mesh with
            loadingURL := none, texture := some t, textureURL := some u,
            litMap := some t, unlitMap := some t } ∧
      (applyAct extract sys (Act.settleOk i t)).events =
        sys.events ++
          (match sys.mesh.textureURL with
           | some old => [Event.removeRef old]
           | none => []) ++ [Event.notify (some t)]) ∧
    (sys.mesh.loadingURL ≠ some u →
      (applyAct extract sys (Act.settleOk i t)).mesh = sys.mesh ∧
      (applyAct extract sys (Act.settleOk i t)).events =
        sys.events ++ [Event.removeRef u]) := by
  constructor
  · intro hcur
    cases hm : sys.mesh.textureURL with
    | some old =>
      have ho : old.isEmpty = false := by
        rw [hm] at hok; simpa [urlOk] using hok
      rw [applyAct_settleOk_current_bound extract sys i t u old hp hcur hm ho]
      exact ⟨rfl, by simp⟩
    | none =>
      rw [applyAct_settleOk_current_unbound extract sys i t u hp hcur hm]
      exact ⟨rfl, by simp⟩
  · intro hcur
    rw [applyAct_settleOk_stale extract sys i t u hp hcur]
    exact ⟨rfl, rfl⟩

/-- Witness for C7: the current-case success settlement of the first fetch
after bind("a") on a fresh binding. -/
theorem C7_success_settlement_witness :
    (applyAct extractURL0 (run extractURL0 initSys [Act.bind (Specifier.str "a")])
        (Act.settleOk 0 5)).mesh =
      { (run extractURL0 initSys [Act.bind (Specifier.str "a")]).mesh with
          loadingURL := none, texture := some 5, textureURL := some "a",
          litMap := some 5, unlitMap := some 5 } ∧
    (applyAct extractURL0 (run extractURL0 initSys [Act.bind (Specifier.str "a")])
        (Act.settleOk 0 5)).events =
      (run extractURL0 initSys [Act.bind (Specifier.str "a")]).events ++
        (match (run extractURL0 initSys [Act.bind (Specifier.str "a")]).mesh.textureURL
         with
         | some old => [Event.removeRef old]
         | none => []) ++ [Event.notify (some 5)] :=
  (C7_success_settlement extractURL0
    (run extractURL0 initSys [Act.bind (Specifier.str "a")]) 0 "a" 5
    (by decide) (by decide)).1 (by decide)

/-- C2: supersession.  After bind(K1) immediately followed by bind(K2) with
distinct resolvable keys (so K2 is issued before K1's fetch settles),
whatever the order and outcomes in which the two fetches settle, the
owner's bound-notification carrying a resource fires at most once and only
with the resource delivered by K2's fetch — never with K1's; it fires
exactly when K2's fetch succeeds and K1's fetch did not fail before it
(a stale failure of K1 wipes the loading key and suppresses K2's bind, a
case in which no resource notification fires at all). -/
theorem C2_supersession (u1 u2 : String) (t1 t2 : Texture)
    (h1 : u1.isEmpty = false) (h2 : u2.isEmpty = false) (hu : u1 ≠ u2)
    (k1First ok1 ok2 : Bool) :
    notifySome (run extractURL0 initSys
      ([Act.bind (Specifier.str u1), Act.bind (Specifier.str u2)] ++
        (if k1First then
          [(if ok1 then Act.settleOk 0 t1 else Act.settleErr 0),
           (if ok2 then Act.settleOk 0 t2 else Act.settleErr 0)]
        else
          [(if ok2 then Act.settleOk 1 t2 else Act.settleErr 1),
           (if ok1 then Act.settleOk 0 t1 else Act.settleErr 0)]))).events =
      (if ok2 && (!k1First || ok1) then [Event.notify (some t2)] else []) := by
  have hv : u2 ≠ u1 := hu.symm
  cases k1First <;> cases ok1 <;> cases ok2 <;>
    simp [run, applyAct, setTextureCall, settleSuccess, settleFailure, setTextureNone,
          clearTexturePart, notifySome, isNotifySome, Specifier.isFalsy, extractURL0,
          initSys, initialMesh, h1, h2, hu, hv]

/-- Witness for C2: distinct keys "a" and "b", K1 settling first, both
fetches succeeding: exactly one notification, with K2's resource. -/
theorem C2_supersession_witness :
    notifySome (run extractURL0 initSys
      ([Act.bind (Specifier.str "a"), Act.bind (Specifier.str "b")] ++
        (if true then
          [(if true then Act.settleOk 0 1 else Act.settleErr 0),
           (if true then Act.settleOk 0 2 else Act.settleErr 0)]
        else
          [(if true then Act.settleOk 1 2 else Act.settleErr 1),
           (if true then Act.settleOk 0 1 else Act.settleErr 0)]))).events =
      (if true && (!true || true) then [Event.notify (some 2)] else []) :=
  C2_supersession "a" "b" 1 2 (by decide) (by decide) (by decide) true true true

end BaseMesh
